import Mathlib

/-!
Verification of the CAN-FD frame decoder in `CANFD_Rx.py` (class `CANFDReader`).

The decoder methods are pure functions over the fields of a received
PCAN-Basic CAN-FD message; they are embedded here directly:

* `get_type_string`    — frame-type classification from the MSGTYPE bitmask
* `get_id_string`      — arbitration-ID rendering (29-bit vs masked 11-bit)
* `get_data_string`    — payload rendering (or the "Remote Request" label)
* `get_length_from_dlc`— the CAN-FD DLC-to-byte-length expansion table

MSGTYPE is a byte-sized bitmask; `id` is an unsigned 32-bit value; `dlc` is
an unsigned byte (the adapter's `TPCANMsgFD.DLC` field is a `c_ubyte`), so
all are modelled as `Nat`.  The payload `DATA` is a byte array, modelled as
`List Nat`; Python's slice `data[:dlc]` is `List.take dlc data`.

Python's `f"{n:X}"` formatting (uppercase hexadecimal, minimal digits, no
zero-padding, `"0"` for zero) is modelled by `toHexUpper` below, and
`" ".join(...)` by `String.intercalate " "`.
-/

namespace CANFD

/-- Flag masks of the external PCAN-Basic API (`TPCANMessageType`): an RTR
(remote-request) frame sets bit 0, an extended-ID frame sets bit 1. -/
def PCAN_MESSAGE_RTR : Nat := 0x01

/-- See `PCAN_MESSAGE_RTR`. -/
def PCAN_MESSAGE_EXTENDED : Nat := 0x02

/-- One hexadecimal digit, uppercase, as produced by Python's `:X` format. -/
def hexDigit (n : Nat) : Char :=
  if n < 10 then Char.ofNat (48 + n) else Char.ofNat (55 + n)

/-- Hex digits of `n`, most significant first; `fuel` bounds the recursion
(`fuel ≥ n` is always enough since `n / 16 < n` for `n > 0`). -/
def hexChars : Nat → Nat → List Char
  | 0, _ => []
  | fuel + 1, n =>
    if n = 0 then [] else hexChars fuel (n / 16) ++ [hexDigit (n % 16)]

/-- Python's `f"{n:X}"` for a nonnegative integer: uppercase hexadecimal,
minimal number of digits, and `"0"` for zero. -/
def toHexUpper (n : Nat) : String :=
  if n = 0 then "0" else String.mk (hexChars n n)

/-- `CANFDReader.get_type_string` (CANFD_Rx.py lines 115-133). -/
def get_type_string (msgtype : Nat) : String :=
  if msgtype &&& PCAN_MESSAGE_EXTENDED = PCAN_MESSAGE_EXTENDED then
    if msgtype &&& PCAN_MESSAGE_RTR = PCAN_MESSAGE_RTR then
      "RTR Frame (Extended ID)"
    else
      "Extended Frame"
  else if msgtype &&& PCAN_MESSAGE_RTR = PCAN_MESSAGE_RTR then
    "RTR Frame (Standard ID)"
  else
    "Standard Frame"

/-- `CANFDReader.get_id_string` (CANFD_Rx.py lines 135-149). -/
def get_id_string (id msgtype : Nat) : String :=
  if msgtype &&& PCAN_MESSAGE_EXTENDED = PCAN_MESSAGE_EXTENDED then
    toHexUpper id
  else
    toHexUpper (id &&& 0x7FF)

/-- `CANFDReader.get_data_string` (CANFD_Rx.py lines 165-180).  Note that the
slice bound is the raw `dlc`, not `get_length_from_dlc dlc`. -/
def get_data_string (data : List Nat) (dlc msgtype : Nat) : String :=
  if msgtype &&& PCAN_MESSAGE_RTR = PCAN_MESSAGE_RTR then
    "Remote Request"
  else
    String.intercalate " " ((data.take dlc).map toHexUpper)

/-- `CANFDReader.get_length_from_dlc` (CANFD_Rx.py lines 182-209). -/
def get_length_from_dlc (dlc : Nat) : Nat :=
  if dlc ≤ 8 then dlc
  else if dlc = 9 then 12
  else if dlc = 10 then 16
  else if dlc = 11 then 20
  else if dlc = 12 then 24
  else if dlc = 13 then 32
  else if dlc = 14 then 48
  else if dlc = 15 then 64
  else 0

/-- The code's test `msgtype & PCAN_MESSAGE_EXTENDED == PCAN_MESSAGE_EXTENDED`
is exactly "bit 1 of the bitmask is set". -/
lemma and_ext_iff (m : Nat) :
    (m &&& PCAN_MESSAGE_EXTENDED = PCAN_MESSAGE_EXTENDED) ↔ m.testBit 1 = true := by
  have h := Nat.and_two_pow m 1
  unfold PCAN_MESSAGE_EXTENDED
  rw [show (0x02 : Nat) = 2 ^ 1 by norm_num, h]
  cases hb : m.testBit 1 <;> simp

/-- The code's test `msgtype & PCAN_MESSAGE_RTR == PCAN_MESSAGE_RTR`
is exactly "bit 0 of the bitmask is set". -/
lemma and_rtr_iff (m : Nat) :
    (m &&& PCAN_MESSAGE_RTR = PCAN_MESSAGE_RTR) ↔ m.testBit 0 = true := by
  have h := Nat.and_two_pow m 0
  unfold PCAN_MESSAGE_RTR
  rw [show (0x01 : Nat) = 2 ^ 0 by norm_num, h]
  cases hb : m.testBit 0 <;> simp

/-- `hexChars` of zero is empty, whatever the fuel. -/
lemma hexChars_zero (fuel : Nat) : hexChars fuel 0 = [] := by
  cases fuel <;> simp [hexChars]

/-- With positive fuel, `hexChars` of a positive number is nonempty. -/
lemma hexChars_ne_nil (fuel n : Nat) (h0 : 0 < n) (h1 : 0 < fuel) :
    hexChars fuel n ≠ [] := by
  cases fuel with
  | zero => omega
  | succ f => simp [hexChars, Nat.pos_iff_ne_zero.mp h0]

/-- The leading digit produced by `hexChars` is never the character 0:
Python's `:X` format emits no leading zero-padding. -/
lemma hexChars_head_ne_zero :
    ∀ fuel n, 0 < n → n ≤ fuel →
      ∀ c, (hexChars fuel n).head? = some c → c ≠ '0' := by
  intro fuel
  induction fuel with
  | zero => intro n h0 hf; omega
  | succ f ih =>
    intro n h0 hf c hc
    have hn : n ≠ 0 := Nat.pos_iff_ne_zero.mp h0
    rw [hexChars, if_neg hn] at hc
    by_cases hq : n / 16 = 0
    · rw [hq, hexChars_zero] at hc
      simp at hc
      have hlt : n < 16 := by omega
      have hmod : n % 16 = n := by omega
      rw [hmod] at hc
      rw [← hc]
      interval_cases n <;> decide
    · have hq' : 0 < n / 16 := Nat.pos_of_ne_zero hq
      have hfe : 0 < f := by omega
      obtain ⟨a, l', he⟩ := List.exists_cons_of_ne_nil (hexChars_ne_nil f (n / 16) hq' hfe)
      rw [he] at hc
      simp at hc
      refine ih (n / 16) hq' (by omega) c ?_
      rw [he, hc]
      rfl

/-- `toHexUpper` of a positive number never starts with the character 0. -/
lemma toHexUpper_head_ne_zero (n : Nat) (h : 0 < n) :
    (toHexUpper n).data.head? ≠ some '0' := by
  unfold toHexUpper
  rw [if_neg (Nat.pos_iff_ne_zero.mp h)]
  intro hc
  exact hexChars_head_ne_zero n n h (le_refl n) '0' hc rfl

/-- C1: the claim says `data_text` of a non-remote frame is built from the
first `get_length_from_dlc dlc` bytes of the payload, so 12 bytes for
`dlc = 9`.  The code instead slices with the raw `dlc`: for `dlc = 9` and a
12-byte payload of ones it renders only 9 bytes, not the 12-byte rendering
the claim describes. -/
theorem c1_data_slice_uses_raw_dlc :
    get_length_from_dlc 9 = 12 ∧
    get_data_string (List.replicate 12 1) 9 0 = "1 1 1 1 1 1 1 1 1" ∧
    get_data_string (List.replicate 12 1) 9 0 ≠
      String.intercalate " "
        (((List.replicate 12 1).take (get_length_from_dlc 9)).map toHexUpper) := by
  refine ⟨by decide, by decide, by decide⟩

/-- C2: `get_length_from_dlc` is the identity on [0,8], follows the CAN-FD
expansion table on 9..15 (9↦12, 10↦16, 11↦20, 12↦24, 13↦32, 14↦48, 15↦64),
and returns 0 for every dlc above 15. -/
theorem c2_length_table (dlc : Nat) :
    (dlc ≤ 8 → get_length_from_dlc dlc = dlc) ∧
    get_length_from_dlc 9 = 12 ∧ get_length_from_dlc 10 = 16 ∧
    get_length_from_dlc 11 = 20 ∧ get_length_from_dlc 12 = 24 ∧
    get_length_from_dlc 13 = 32 ∧ get_length_from_dlc 14 = 48 ∧
    get_length_from_dlc 15 = 64 ∧
    (15 < dlc → get_length_from_dlc dlc = 0) := by
  refine ⟨fun h => ?_, by decide, by decide, by decide, by decide, by decide,
    by decide, by decide, fun h => ?_⟩
  · rw [get_length_from_dlc, if_pos h]
  · unfold get_length_from_dlc
    split_ifs <;> omega

/-- Witness for C2 at dlc = 5 and dlc = 20. -/
theorem c2_length_table_witness :
    (5 ≤ 8 ∧ get_length_from_dlc 5 = 5) ∧ (15 < 20 ∧ get_length_from_dlc 20 = 0) :=
  ⟨⟨by decide, (c2_length_table 5).1 (by decide)⟩,
   ⟨by decide, (c2_length_table 20).2.2.2.2.2.2.2.2 (by decide)⟩⟩

/-- C3: `get_type_string` classifies the MSGTYPE bitmask into exactly one of
four labels, testing the extended bit (bit 1) before the remote bit (bit 0):
both set gives "RTR Frame (Extended ID)", extended only gives
"Extended Frame", remote only gives "RTR Frame (Standard ID)", and neither
gives "Standard Frame". -/
theorem c3_type_classification (m : Nat) :
    (m.testBit 1 = true → m.testBit 0 = true →
      get_type_string m = "RTR Frame (Extended ID)") ∧
    (m.testBit 1 = true → m.testBit 0 = false →
      get_type_string m = "Extended Frame") ∧
    (m.testBit 1 = false → m.testBit 0 = true →
      get_type_string m = "RTR Frame (Standard ID)") ∧
    (m.testBit 1 = false → m.testBit 0 = false →
      get_type_string m = "Standard Frame") := by
  refine ⟨?_, ?_, ?_, ?_⟩ <;> intro h1 h0 <;>
    simp [get_type_string, and_ext_iff, and_rtr_iff, h1, h0]

/-- Witness for C3 at the four concrete bitmasks 3, 2, 1, 0. -/
theorem c3_type_classification_witness :
    get_type_string 3 = "RTR Frame (Extended ID)" ∧
    get_type_string 2 = "Extended Frame" ∧
    get_type_string 1 = "RTR Frame (Standard ID)" ∧
    get_type_string 0 = "Standard Frame" :=
  ⟨(c3_type_classification 3).1 (by decide) (by decide),
   (c3_type_classification 2).2.1 (by decide) (by decide),
   (c3_type_classification 1).2.2.1 (by decide) (by decide),
   (c3_type_classification 0).2.2.2 (by decide) (by decide)⟩

/-- C4: for every dlc above 15 (out of the [0,15] protocol range; dlc is an
unsigned byte, so this is the whole out-of-range set), `get_length_from_dlc`
returns 0; being a total function into Nat it has no error outcome. -/
theorem c4_out_of_range_dlc_degrades (dlc : Nat) (h : 15 < dlc) :
    get_length_from_dlc dlc = 0 := by
  unfold get_length_from_dlc
  split_ifs <;> omega

/-- Witness for C4 at dlc = 255. -/
theorem c4_out_of_range_dlc_degrades_witness :
    15 < 255 ∧ get_length_from_dlc 255 = 0 :=
  ⟨by decide, c4_out_of_range_dlc_degrades 255 (by decide)⟩

/-- C5: `get_id_string` renders the full id as uppercase hex when the
extended bit is set, and the id masked to its low 11 bits (id % 2048) when
it is clear; the rendering has no leading zero-padding (a positive value
never starts with the digit 0), and id 0x1ABCDE extended gives "1ABCDE". -/
theorem c5_id_formatting (id m : Nat) :
    (m.testBit 1 = true → get_id_string id m = toHexUpper id) ∧
    (m.testBit 1 = false → get_id_string id m = toHexUpper (id % 2048)) ∧
    (0 < id → (toHexUpper id).data.head? ≠ some '0') ∧
    get_id_string 0x1ABCDE 2 = "1ABCDE" := by
  refine ⟨fun h => ?_, fun h => ?_, toHexUpper_head_ne_zero id, by decide⟩
  · simp [get_id_string, and_ext_iff, h]
  · simp [get_id_string, and_ext_iff, h]
    congr 1
    have hm := Nat.and_pow_two_sub_one_eq_mod id 11
    norm_num at hm
    exact hm

/-- Witness for C5 at id 0x1ABCDE (extended) and id 0x1ABC (standard). -/
theorem c5_id_formatting_witness :
    (Nat.testBit 2 1 = true ∧ get_id_string 0x1ABCDE 2 = toHexUpper 0x1ABCDE) ∧
    (Nat.testBit 0 1 = false ∧ get_id_string 0x1ABC 0 = toHexUpper (0x1ABC % 2048)) ∧
    (0 < 0x1ABCDE ∧ (toHexUpper 0x1ABCDE).data.head? ≠ some '0') :=
  ⟨⟨by decide, (c5_id_formatting 0x1ABCDE 2).1 (by decide)⟩,
   ⟨by decide, (c5_id_formatting 0x1ABC 0).2.1 (by decide)⟩,
   ⟨by decide, (c5_id_formatting 0x1ABCDE 2).2.2.1 (by decide)⟩⟩

/-- C6 counterexample: the claim (taken from the spec's worked example) says
a standard frame with raw id 0x1ABC renders as "ABC", but
0x1ABC &&& 0x7FF = 0x2BC, so the code renders "2BC". -/
theorem c6_counterexample : get_id_string 0x1ABC 0 ≠ "ABC" := by decide

/-- C6 amended: for a standard frame (extended bit clear) with raw id
0x1ABC, `get_id_string` returns "2BC", the hex rendering of
0x1ABC &&& 0x7FF — masking does ignore the bits above bit 10. -/
theorem c6_standard_id_masked (m : Nat) (h : m.testBit 1 = false) :
    get_id_string 0x1ABC m = "2BC" := by
  simp [get_id_string, and_ext_iff, h]
  decide

/-- Witness for the amended C6 at msgtype 0. -/
theorem c6_standard_id_masked_witness :
    Nat.testBit 0 1 = false ∧ get_id_string 0x1ABC 0 = "2BC" :=
  ⟨by decide, c6_standard_id_masked 0 (by decide)⟩

/-- C7: whenever the remote bit of the MSGTYPE bitmask is set,
`get_data_string` returns exactly "Remote Request", for every payload and
every dlc. -/
theorem c7_remote_request (data : List Nat) (dlc m : Nat)
    (h : m.testBit 0 = true) :
    get_data_string data dlc m = "Remote Request" := by
  simp [get_data_string, and_rtr_iff, h]

/-- Witness for C7 at payload [1, 2, 3], dlc 5, msgtype 1. -/
theorem c7_remote_request_witness :
    Nat.testBit 1 0 = true ∧ get_data_string [1, 2, 3] 5 1 = "Remote Request" :=
  ⟨by decide, c7_remote_request [1, 2, 3] 5 1 (by decide)⟩

/-- C8: a non-remote frame with dlc 3 whose payload begins 0x0A, 0xFF, 0x01
renders as "A FF 1" (uppercase hex, no zero-padding, single spaces), and a
non-remote frame with dlc 0 renders as the empty string. -/
theorem c8_payload_rendering (rest data : List Nat) (m : Nat) :
    (m.testBit 0 = false →
      get_data_string (0x0A :: 0xFF :: 0x01 :: rest) 3 m = "A FF 1") ∧
    (m.testBit 0 = false → get_data_string data 0 m = "") := by
  have hc : ∀ h : m.testBit 0 = false,
      ¬ (m &&& PCAN_MESSAGE_RTR = PCAN_MESSAGE_RTR) := by
    intro h
    rw [and_rtr_iff]
    simp [h]
  refine ⟨fun h => ?_, fun h => ?_⟩
  · rw [get_data_string.eq_1, if_neg (hc h)]
    rfl
  · rw [get_data_string.eq_1, if_neg (hc h)]
    rfl

/-- Witness for C8 at msgtype 0, payload tail [9] and payload [1, 2]. -/
theorem c8_payload_rendering_witness :
    Nat.testBit 0 0 = false ∧
    get_data_string [0x0A, 0xFF, 0x01, 9] 3 0 = "A FF 1" ∧
    get_data_string [1, 2] 0 0 = "" :=
  ⟨by decide, (c8_payload_rendering [9] [1, 2] 0).1 (by decide),
   (c8_payload_rendering [9] [1, 2] 0).2 (by decide)⟩

/-- C10: `get_length_from_dlc` only ever returns a value in
{0,...,8, 12, 16, 20, 24, 32, 48, 64}; in particular it never exceeds 64,
the maximum CAN-FD payload size. -/
theorem c10_length_bounded (dlc : Nat) :
    get_length_from_dlc dlc ∈
      [0, 1, 2, 3, 4, 5, 6, 7, 8, 12, 16, 20, 24, 32, 48, 64] ∧
    get_length_from_dlc dlc ≤ 64 := by
  by_cases h : dlc ≤ 15
  · interval_cases dlc <;> exact ⟨by decide, by decide⟩
  · have h0 : get_length_from_dlc dlc = 0 := by
      unfold get_length_from_dlc
      split_ifs <;> omega
    rw [h0]
    exact ⟨by decide, by decide⟩

end CANFD
